import Mathlib

/-!
Verification of the core story-generation pipeline of the toddlerstorytime
repository: the element randomizer (`app/core/randomizer.py`), the story seed
bank (`app/core/story_seed_bank.py`), the prompt builder (`app/llm/base.py`),
the provider factory (`app/llm/factory.py`) and the streaming orchestrator of
`app/endpoints/stories.py`.

Python strings are modelled as Lean `String` values (both are sequences of
unicode code points).  Python string primitives that the code uses
(`str.strip`, `str.split`, `str.lower`, `str.startswith`, slicing, the `in`
substring test, `" ".join`) are embedded below as structurally recursive
functions over `String.data`, so that all definitions evaluate by kernel
reduction.  Randomness is embedded by passing the outcome of each random draw
explicitly: `random.choice(l)` / `random.choices(l, ...)[0]` become selection
of `l[i % len(l)]` for an oracle-supplied index `i`, and `random.sample` /
`random.random()` outcomes become explicit arguments about which the theorems
quantify.  Dictionaries keyed by strings become functions or association
lists.
-/

/-- Model of Python `str.strip()`: drop whitespace from both ends.
(Python strips unicode whitespace; `Char.isWhitespace` covers the ASCII
whitespace that occurs in this code base.) -/
def pyStrip (s : String) : String :=
  ⟨((s.data.dropWhile Char.isWhitespace).reverse.dropWhile Char.isWhitespace).reverse⟩

/-- Model of Python `str.lower()` (ASCII case folding, which covers all
strings occurring in this code base). -/
def pyLower (s : String) : String :=
  ⟨s.data.map Char.toLower⟩

/-- Model of Python `s.startswith(pat)`. -/
def pyStartsWith (s pat : String) : Bool :=
  pat.data.isPrefixOf s.data

/-- Model of Python slicing `s[n:]` (by code points). -/
def pyDrop (s : String) (n : Nat) : String :=
  ⟨s.data.drop n⟩

/-- Helper for `pyContains`: does `pat` occur as a contiguous sublist? -/
def charsContain (pat : List Char) : List Char → Bool
  | [] => pat.isPrefixOf []
  | c :: rest => pat.isPrefixOf (c :: rest) || charsContain pat rest

/-- Model of the Python substring test `pat in s`. -/
def pyContains (s pat : String) : Bool :=
  charsContain pat.data s.data

/-- Helper for `pySplitChar`: split a character list at every occurrence of
`c`, keeping empty pieces, exactly as Python `str.split(sep)` does for a
one-character separator. -/
def splitCharAux (c : Char) : List Char → List Char → List String
  | [], cur => [⟨cur.reverse⟩]
  | d :: rest, cur =>
    if d = c then ⟨cur.reverse⟩ :: splitCharAux c rest []
    else splitCharAux c rest (d :: cur)

/-- Model of Python `s.split(sep)` for a one-character separator `c`
(the code only splits on `"\n"` and on `","`). -/
def pySplitChar (c : Char) (s : String) : List String :=
  splitCharAux c s.data []

/-- Model of Python `sep.join(l)`. -/
def pyJoinSep (sep : String) : List String → String
  | [] => ""
  | [a] => a
  | a :: b :: rest => a ++ sep ++ pyJoinSep sep (b :: rest)

/-- Concatenation of a list of strings (Python `"".join` / repeated `+=`),
used to state totals of forwarded text. -/
def concatAll : List String → String
  | [] => ""
  | a :: rest => a ++ concatAll rest

/-- Model of `random.choice(l)` (and of the single element returned by
`random.choices(l, ...)`): the oracle supplies an index `i`, and the element
`l[i % len(l)]` is selected, so that every element of a non-empty list is a
possible outcome. -/
def pyChoice {α : Type} [Inhabited α] (l : List α) (i : Nat) : α :=
  l.getD (i % l.length) default

/-! ## Element randomizer, `app/core/randomizer.py`

`StoryRandomizer._weighted_random_choice` (lines 20-50) computes inverse
frequency weights, normalizes them and draws one option; with no frequency
data for the element type, or at most one option, it draws uniformly via
`random.choice`.  The frequency dictionary `self.frequencies` is modelled as
`Option (String → Nat)`: `none` when `element_type not in self.frequencies`,
otherwise the total function behind `freq_data.get(option, 0)`. -/

/-- The distribution of `random.choice(options)`: every position gets
probability `1 / len(options)`. -/
def uniformDist (options : List String) : List ℚ :=
  options.map (fun _ => ((options.length : ℚ))⁻¹)

/-- Lines 36-43: `weight = 1.0 / (freq + 1)` for each option, where
`freq = freq_data.get(option, 0)`. -/
def inverseFrequencyWeights (freqData : String → Nat) (options : List String) : List ℚ :=
  options.map (fun o => 1 / ((freqData o : ℚ) + 1))

/-- Lines 45-47: `norm_weights = [w / total_weight for w in weights]`. -/
def normalizedWeights (freqData : String → Nat) (options : List String) : List ℚ :=
  let ws := inverseFrequencyWeights freqData options
  ws.map (fun w => w / ws.sum)

/-- The selection distribution of `_weighted_random_choice(options,
element_type)` over the positions of `options` (lines 25-50): empty input
returns `None` (empty distribution); one option or a missing frequency table
gives the uniform `random.choice`; otherwise `random.choices` is called with
the normalized inverse-frequency weights. -/
def weightedChoiceDist (freqTable : Option (String → Nat)) (options : List String) : List ℚ :=
  if options = [] then []
  else
    match freqTable with
    | none => uniformDist options
    | some freqData =>
      if options.length ≤ 1 then uniformDist options
      else normalizedWeights freqData options

/-- Operational model of `_weighted_random_choice`: `None` on an empty list,
otherwise some element of `options` selected by the random oracle (both
`random.choice` and `random.choices` return an element of `options`). -/
def weightedChoicePick (options : List String) (idx : Nat) : Option String :=
  if options = [] then none else some (pyChoice options idx)

/-- The `"characters"` candidate list of `STORY_SETTINGS` in
`app/config.py` (lines 55-75). -/
def storyCharactersPool : List String :=
  ["Wesley", "Mom", "Dad", "Chase", "Marshall", "Skye", "Rubble", "Rocky",
   "Zuma", "Ryder", "Elsa", "Anna", "Olaf", "Mickey Mouse", "Minnie Mouse",
   "Bluey", "Bingo", "Bandit", "Chilli"]

/-- The character selection loop of `randomize_story_elements` (lines 82-89):
run `n` draws; stop early when the pool is exhausted; each successful draw
appends the chosen name to `acc` and removes it from `available`. `picks m`
is the random outcome of the draw made when `m` iterations remain. -/
def drawCharacters (picks : Nat → Nat) (n : Nat) (available acc : List String) : List String :=
  match n with
  | 0 => acc
  | Nat.succ m =>
    if available = [] then acc
    else
      match weightedChoicePick available (picks m) with
      | none => drawCharacters picks m available acc
      | some c => drawCharacters picks m (available.erase c) (acc ++ [c])

/-- The characters part of `randomize_story_elements` (lines 70-91):
optionally force-include the child name (when preferences supply a truthy
one) and reduce the draw count; exclude names already in `characters` from
the available pool; then run the weighted draws.  `numDraws` is the outcome
of `random.randint(2, 4)`. -/
def randomizeCharacters (pool : List String) (childName : Option String)
    (numDraws : Nat) (picks : Nat → Nat) : List String :=
  let initial : List String :=
    match childName with
    | some c => if c = "" then [] else [c]
    | none => []
  let n : Nat :=
    match childName with
    | some c => if c = "" then numDraws else numDraws - 1
    | none => numDraws
  let available := pool.filter (fun c => c ∉ initial)
  drawCharacters picks n available initial

/-- The favorite-character part of `apply_preferences` (lines 109-113):
when a favorite character is set and the 80% coin comes up, append it to the
characters list unless it is already present. `coin` is the outcome of
`random.random() < 0.8`. -/
def applyFavoriteCharacter (chars : List String) (favorite : Option String)
    (coin : Bool) : List String :=
  match favorite with
  | some f => if f ≠ "" ∧ coin then (if f ∉ chars then chars ++ [f] else chars) else chars
  | none => chars
def seedBankCatalog : List (String × List String) := [
  ("Friendship", [
    "Character makes a new friend who is very different from them",
    "Character feels left out when friends play together without them",
    "Character learns to share their favorite toy with a friend",
    "Two characters who initially don\x27t get along find common ground",
    "Character helps a shy friend join in group activities",
    "Character and friend have a disagreement but learn to compromise",
    "Character misses a faraway friend and finds a way to connect",
    "Character teaches a new skill to a friend who\x27s struggling",
    "Character prepares a surprise for a friend who\x27s feeling sad",
    "Friends work together to build something amazing",
    "Character learns that friends can have different opinions and still be friends",
    "Character feels jealous of friend\x27s new toy but learns to be happy for them",
    "Friends get lost together and help each other find their way",
    "Character stands up for a friend who\x27s being teased",
    "Friends take turns choosing what game to play"]),
  ("Helping Others", [
    "Character rescues a small animal stuck in a tree",
    "Character helps someone who fell and hurt themselves",
    "Character notices someone forgot their lunch and shares theirs",
    "Character helps clean up a mess they didn\x27t make",
    "Character builds a ramp for someone who can\x27t use stairs",
    "Character reads a story to someone who can\x27t read",
    "Character teaches a younger child how to tie their shoes",
    "Character helps find something important that was lost",
    "Character shares their umbrella during a rainstorm",
    "Character notices someone is sad and cheers them up",
    "Character helps carry heavy groceries for someone",
    "Character makes a card for someone who\x27s sick",
    "Character helps plant a garden for the community",
    "Character rescues a toy that floated away in water",
    "Character helps translate for someone who speaks a different language"]),
  ("Trying New Things", [
    "Character tries a new food they thought they wouldn\x27t like",
    "Character tries a new sport or activity they\x27ve never done before",
    "Character is scared of swimming but tries it anyway",
    "Character makes a new recipe for the first time",
    "Character tries to make friends in a new place",
    "Character learns to ride a bike despite being afraid of falling",
    "Character tries a musical instrument for the first time",
    "Character tries speaking in front of a group despite being nervous",
    "Character tries a challenging puzzle that looks too hard",
    "Character learns words in a new language",
    "Character tries camping outdoors for the first time",
    "Character tries to grow a plant from a seed",
    "Character tries a new game with rules they don\x27t understand at first",
    "Character tries to fix something broken instead of asking for help",
    "Character creates art using a new technique they\x27ve never tried"]),
  ("Facing Fears", [
    "Character is afraid of the dark and learns to overcome it",
    "Character is scared of loud noises like thunder",
    "Character fears going to the doctor but finds it\x27s not so bad",
    "Character is afraid of deep water but wants to swim",
    "Character fears big animals but meets a gentle one",
    "Character is scared to go down the big slide",
    "Character is afraid of getting lost in a crowded place",
    "Character fears sleeping away from home for the first time",
    "Character is scared of bugs but learns some are helpful",
    "Character fears performing in front of others",
    "Character is afraid of making mistakes when learning something new",
    "Character fears going to a new school or class",
    "Character is scared to try food that looks strange",
    "Character fears speaking to someone they don\x27t know",
    "Character is afraid of heights but wants to see the view"]),
  ("Being Kind", [
    "Character shares their favorite toy with someone who has none",
    "Character makes a get-well card for someone who\x27s sick",
    "Character includes someone who\x27s playing alone",
    "Character says kind words to someone who\x27s feeling sad",
    "Character helps someone younger who\x27s struggling with a task",
    "Character leaves a surprise gift for someone to find",
    "Character compliments others on things they do well",
    "Character gives up their seat for someone who needs it more",
    "Character notices when someone is left out and invites them to play",
    "Character helps clean up someone else\x27s spill without being asked",
    "Character returns a lost item they found instead of keeping it",
    "Character apologizes when they accidentally hurt someone\x27s feelings",
    "Character makes a welcome gift for a new neighbor",
    "Character shares an umbrella with someone caught in the rain",
    "Character takes care of someone else\x27s pet or plant while they\x27re away"]),
  ("Learning New Skills", [
    "Character learns to tie their shoes for the first time",
    "Character practices riding a bike without training wheels",
    "Character learns to count to higher numbers",
    "Character tries to write their name by themselves",
    "Character learns to make their bed independently",
    "Character figures out how to build a tall tower that won\x27t fall",
    "Character learns to use scissors safely",
    "Character practices catching a ball after many misses",
    "Character learns to use a new tool with help",
    "Character learns words in a different language",
    "Character practices drawing shapes and letters",
    "Character learns to brush their teeth properly",
    "Character figures out how to complete a puzzle",
    "Character learns to pour their own drink without spilling",
    "Character practices singing a song with all the right words"]),
  ("Listening to Parents", [
    "Character remembers to look both ways before crossing the street",
    "Character stays close in a crowded place as told",
    "Character wants to play longer but comes when called",
    "Character remembers to wash hands before eating as taught",
    "Character picks up toys when asked without complaining",
    "Character doesn\x27t touch something dangerous as warned",
    "Character holds hands in the parking lot as required",
    "Character goes to bed on time without fussing",
    "Character remembers to say please and thank you",
    "Character doesn\x27t wander off in a store",
    "Character follows directions to help with a simple task",
    "Character waits patiently when asked instead of interrupting",
    "Character leaves something alone that\x27s not for children",
    "Character tells a parent before going outside",
    "Character doesn\x27t open the door to strangers as taught"]),
  ("Sharing", [
    "Character shares their favorite toy with a friend",
    "Character takes turns with a popular playground equipment",
    "Character shares their snack with someone who has none",
    "Character shares art supplies during a project",
    "Character learns to share parent\x27s attention with a sibling",
    "Character shares their umbrella during a rainstorm",
    "Character lets someone else have a turn with a new toy",
    "Character shares their knowledge by teaching a skill",
    "Character shares their space on a bench or mat",
    "Character divides treats equally among friends",
    "Character shares a book they\x27ve finished reading",
    "Character lets others use their toys at a playdate",
    "Character shares credit for an idea or creation",
    "Character shares their time to help someone else",
    "Character learns that sharing can make play more fun"]),
  ("Patience", [
    "Character waits their turn on playground equipment",
    "Character works on a difficult puzzle without giving up",
    "Character waits quietly during an important meeting",
    "Character saves money for something they want",
    "Character plants seeds and waits for them to grow",
    "Character practices a skill many times before improving",
    "Character waits in line without pushing or complaining",
    "Character waits for dinner to be ready when hungry",
    "Character lets someone finish speaking before talking",
    "Character calmly waits for help instead of yelling",
    "Character waits for a special event that\x27s coming soon",
    "Character tries repeatedly to learn a new skill",
    "Character must wait for a rainy day to end",
    "Character learns that sometimes good things take time",
    "Character must wait their turn to be picked for a game"]),
  ("Being Brave", [
    "Character tries a big slide at the playground despite fear",
    "Character stands up to someone who\x27s being unkind",
    "Character speaks in front of the class for the first time",
    "Character goes to the doctor despite being scared",
    "Character approaches new children to make friends",
    "Character tries a new food that looks strange",
    "Character sleeps without a nightlight for the first time",
    "Character enters a dark room to retrieve a toy",
    "Character defends a friend who\x27s being teased",
    "Character tries to swim in the deep end",
    "Character tells the truth even when it\x27s hard",
    "Character goes on a ride that seems scary",
    "Character stays alone for the first time",
    "Character performs in front of an audience",
    "Character stands up for what\x27s right even when friends disagree"]),
  ("Taking Turns", [
    "Characters take turns on a swing at the playground",
    "Characters create a system for taking turns with a new toy",
    "Character learns to wait while others have their turn in a game",
    "Characters take turns choosing which game to play",
    "Children take turns being the leader in an activity",
    "Characters take turns adding ingredients while baking",
    "Character struggles but learns to wait for their turn to speak",
    "Characters take turns reading pages of a book",
    "Character waits patiently for their turn on a special ride",
    "Characters take turns using limited art supplies",
    "Character learns that taking turns means everyone gets a chance",
    "Characters take turns carrying something heavy together",
    "Character feels frustrated waiting but finds ways to be patient",
    "Characters use a timer to ensure fair turns",
    "Character lets someone else go first as an act of kindness"]),
  ("Apologizing", [
    "Character accidentally breaks something and apologizes",
    "Character says mean words and learns to say sorry",
    "Character accidentally hurts someone during play",
    "Character forgets an important promise and apologizes",
    "Character takes something without asking first",
    "Character makes a mess and apologizes while helping clean up",
    "Character learns that saying sorry isn\x27t enough without changing behavior",
    "Character blames someone else but later admits the truth",
    "Character interrupts someone important and apologizes",
    "Character accidentally ruins something someone else made",
    "Character doesn\x27t share and later feels sorry about it",
    "Character learns how to apologize properly and mean it",
    "Character understands how their actions affected someone\x27s feelings",
    "Character apologizes even when it was an accident",
    "Character makes amends after an apology by doing something kind"]),
  ("Gratitude", [
    "Character learns to say thank you for everyday kindnesses",
    "Character makes thank-you cards for people who help them",
    "Character appreciates nature during a walk outside",
    "Character feels grateful for family during a special moment",
    "Character shows gratitude for a meal someone prepared",
    "Character receives a gift and shows genuine appreciation",
    "Character realizes how lucky they are compared to others",
    "Character thanks someone for teaching them a new skill",
    "Character appreciates help during a difficult task",
    "Character keeps a gratitude journal or list",
    "Character creates a gift to show thanks to someone special",
    "Character learns to be grateful even for small things",
    "Character feels thankful when someone cheers them up",
    "Character appreciates the beauty in everyday moments",
    "Character expresses thanks to community helpers like mail carriers"]),
  ("Sleep Routine", [
    "Character resists bedtime but learns why sleep is important",
    "Character creates a special bedtime routine with family",
    "Character overcomes fear of the dark at bedtime",
    "Character struggles to fall asleep and learns relaxation techniques",
    "Character wants \x27one more story\x27 but learns about time limits",
    "Character learns to prepare for bed independently",
    "Character experiences a dream and talks about it the next day",
    "Character has a special stuffed animal or blanket for bedtime",
    "Character helps create a calm, cozy sleep environment",
    "Character learns to set out clothes for the morning",
    "Character discovers the benefits of being well-rested",
    "Character deals with distractions at bedtime",
    "Character finds that a bath before bed helps them sleep",
    "Character learns a bedtime song or prayer routine",
    "Character has a special goodnight ritual with family"]),
  ("Morning Routine", [
    "Character learns to get dressed independently",
    "Character helps prepare breakfast with a parent",
    "Character remembers all the steps in morning hygiene",
    "Character packs their own bag for school or daycare",
    "Character creates a morning checklist to follow",
    "Character deals with moving slowly when they need to hurry",
    "Character helps a sibling with their morning routine",
    "Character wakes up too early and learns to wait quietly",
    "Character struggles to get out of a warm, cozy bed",
    "Character remembers to feed a pet as part of morning responsibilities",
    "Character makes their bed without being reminded",
    "Character gets ready efficiently to have time for play",
    "Character prepares the night before to make morning easier",
    "Character learns what to do if they oversleep",
    "Character has a special morning greeting ritual with family"])]

def settingAdjustmentsCatalog : List (String × List String) := [
  ("Beach", [
    "building a sandcastle together",
    "collecting seashells along the shore",
    "playing in the gentle waves",
    "having a picnic on a beach towel",
    "digging a hole to find water",
    "watching seagulls and other beach creatures",
    "flying a kite in the beach breeze",
    "helping someone who got sand in their eyes",
    "looking for crabs in tide pools",
    "making footprints in the wet sand",
    "cleaning up litter from the beach",
    "helping apply sunscreen to hard-to-reach spots",
    "rescuing a toy that floated away in the water",
    "sharing beach toys with others",
    "waiting patiently for turns on a boogie board"]),
  ("Playground", [
    "taking turns on the slide",
    "pushing someone on the swings",
    "climbing the jungle gym together",
    "playing in the sandbox",
    "making friends with a new child",
    "helping someone who fell down",
    "waiting in line for the popular equipment",
    "sharing playground toys",
    "inviting someone to join a game",
    "helping a younger child navigate equipment",
    "finding a lost toy in the playground",
    "cleaning up trash on the playground",
    "resolving an argument over who goes next",
    "teaching someone how to use monkey bars",
    "helping someone who\x27s stuck on equipment"])]

def universeCharactersCatalog : List (String × List String) := [
  ("Paw Patrol", [
    "Ryder",
    "Chase",
    "Marshall",
    "Skye",
    "Rubble",
    "Zuma",
    "Rocky",
    "Everest",
    "Tracker",
    "Ella",
    "Tuck",
    "Rex",
    "Katie",
    "Alex Porter",
    "Jake"]),
  ("Disney Princesses", [
    "Cinderella",
    "Ariel",
    "Belle",
    "Jasmine",
    "Rapunzel",
    "Moana",
    "Snow White",
    "Aurora",
    "Pocahontas",
    "Mulan",
    "Tiana",
    "Merida"]),
  ("Toy Story", [
    "Woody",
    "Buzz Lightyear",
    "Jessie",
    "Mr. Potato Head",
    "Slinky Dog",
    "Rex",
    "Forky",
    "Bo Peep",
    "Hamm"]),
  ("Frozen", [
    "Elsa",
    "Anna",
    "Olaf",
    "Kristoff",
    "Sven",
    "Hans",
    "King Agnarr",
    "Queen Iduna",
    "Duke of Weselton",
    "Marshmallow",
    "Oaken"]),
  ("Cars", [
    "Lightning McQueen",
    "Mater",
    "Sally Carrera",
    "Doc Hudson",
    "Ramone",
    "Flo",
    "Fillmore",
    "Sarge",
    "Red",
    "Cruz Ramirez"]),
  ("Moana", [
    "Moana",
    "Maui",
    "Heihei",
    "Pua",
    "Gramma Tala",
    "Chief Tui",
    "Te Fiti",
    "Tamatoa"]),
  ("The Lion King", [
    "Simba",
    "Nala",
    "Timon",
    "Pumbaa",
    "Rafiki",
    "Zazu",
    "Scar",
    "Mufasa",
    "Sarabi"]),
  ("Finding Nemo", [
    "Nemo",
    "Dory",
    "Marlin",
    "Crush",
    "Squirt",
    "Mr. Ray"]),
  ("Monsters, Inc.", [
    "Sully",
    "Mike Wazowski",
    "Boo",
    "Randall Boggs",
    "Roz"]),
  ("Winnie the Pooh", [
    "Pooh",
    "Piglet",
    "Tigger",
    "Eeyore",
    "Rabbit",
    "Kanga",
    "Roo",
    "Owl"]),
  ("Mickey Mouse Clubhouse", [
    "Mickey Mouse",
    "Minnie Mouse",
    "Donald Duck",
    "Goofy",
    "Pluto",
    "Daisy Duck"]),
  ("Peppa Pig", [
    "Peppa",
    "George",
    "Mummy Pig",
    "Daddy Pig",
    "Suzy Sheep",
    "Rebecca Rabbit"]),
  ("SpongeBob SquarePants", [
    "SpongeBob",
    "Patrick Star",
    "Squidward Tentacles",
    "Mr. Krabs",
    "Sandy Cheeks",
    "Plankton"]),
  ("Dora the Explorer", [
    "Dora",
    "Boots",
    "Swiper",
    "Backpack",
    "Map",
    "Isa the Iguana"]),
  ("Thomas & Friends", [
    "Thomas",
    "Percy",
    "James",
    "Gordon",
    "Emily",
    "Sir Topham Hatt"]),
  ("Sesame Street", [
    "Elmo",
    "Big Bird",
    "Cookie Monster",
    "Grover",
    "Oscar the Grouch",
    "Bert",
    "Ernie",
    "Abby Cadabby"]),
  ("Transformers", [
    "Optimus Prime",
    "Bumblebee",
    "Megatron",
    "Starscream",
    "Ironhide",
    "Ratchet"]),
  ("Super Mario Bros.", [
    "Mario",
    "Luigi",
    "Princess Peach",
    "Toad",
    "Yoshi",
    "Bowser"]),
  ("Pokemon", [
    "Pikachu",
    "Ash Ketchum",
    "Charmander",
    "Bulbasaur",
    "Squirtle",
    "Jigglypuff"]),
  ("Barbie", [
    "Barbie",
    "Ken",
    "Skipper",
    "Stacie",
    "Chelsea",
    "Teresa"]),
  ("Hello Kitty", [
    "Hello Kitty",
    "Mimmy",
    "Dear Daniel",
    "My Melody",
    "Keroppi"]),
  ("Bluey", [
    "Bluey",
    "Bingo",
    "Bandit (Dad)",
    "Chilli (Mum)",
    "Lucky",
    "Chloe"]),
  ("Octonauts", [
    "Captain Barnacles",
    "Kwazii",
    "Peso",
    "Shellington",
    "Dashi",
    "Inkling",
    "Tweak"]),
  ("Blippi", [
    "Blippi",
    "Meekah"])]
/-! ## Story seed bank, `app/core/story_seed_bank.py`

The persistent cache `self.cached_scenarios` is modelled as a function from
cache keys to lists of seeds, with `[]` standing for a missing or empty
entry (the code guards with `cache_key in self.cached_scenarios and
self.cached_scenarios[cache_key]`, which treats both identically). -/

/-- A generated scenario seed: the dictionaries built at lines 403-422. -/
structure Seed where
  problem : String
  activity : String
  emotion : String
  resolution : String
deriving DecidableEq, Inhabited, Repr

/-- The random outcomes consumed by one iteration of the generation loop
(lines 398-424): the premise and activity choices, the six emotion and
resolution choices inside the three candidate dictionaries, and the final
choice among the three candidates. -/
structure SeedDraw where
  premiseIdx : Nat
  activityIdx : Nat
  emotionIdx1 : Nat
  resolutionIdx1 : Nat
  emotionIdx2 : Nat
  resolutionIdx2 : Nat
  emotionIdx3 : Nat
  resolutionIdx3 : Nat
  variantIdx : Nat
deriving Inhabited

/-- Emotion options of the first candidate dictionary (line 407). -/
def emotionChoices1 : List String :=
  ["excited", "nervous", "curious", "worried", "happy"]

/-- Resolution options of the first candidate dictionary (line 408). -/
def resolutionChoices1 : List String :=
  ["teamwork", "perseverance", "kindness", "creativity", "bravery"]

/-- Emotion options of the second candidate dictionary (line 413). -/
def emotionChoices2 : List String :=
  ["surprised", "confused", "determined", "unsure", "proud"]

/-- Resolution options of the second candidate dictionary (line 414). -/
def resolutionChoices2 : List String :=
  ["asking for help", "trying again", "thinking creatively", "being patient", "working together"]

/-- Emotion options of the third candidate dictionary (line 419). -/
def emotionChoices3 : List String :=
  ["amazed", "thoughtful", "joyful", "calm", "energetic"]

/-- Resolution options of the third candidate dictionary (line 420). -/
def resolutionChoices3 : List String :=
  ["making a new friend", "solving a problem", "sharing with others", "helping someone", "learning something new"]

/-- Lookup in a Python dictionary literal with `.get(key, [])`. -/
def lookupCatalog (cat : List (String × List String)) (key : String) : List String :=
  match cat.find? (fun p => p.1 = key) with
  | some p => p.2
  | none => []

/-- Fallback premises when the theme is not in `SEED_BANK` (lines 385-387). -/
def fallbackThemeScenarios : List String :=
  ["Character learns something important about friendship",
   "Character helps someone in need",
   "Character overcomes a challenge together with friends"]

/-- Fallback activities when the setting is not in `SETTING_ADJUSTMENTS`
(lines 392-393). -/
def fallbackSettingAdjustments : List String :=
  ["playing together", "exploring together",
   "discovering something new", "helping each other"]

/-- Lines 382-387: the premise list for a theme, with fallback. -/
def themeScenariosFor (theme : String) : List String :=
  let l := lookupCatalog seedBankCatalog theme
  if l = [] then fallbackThemeScenarios else l

/-- Lines 389-393: the activity list for a setting, with fallback. -/
def settingAdjustmentsFor (setting : String) : List String :=
  let l := lookupCatalog settingAdjustmentsCatalog setting
  if l = [] then fallbackSettingAdjustments else l

/-- The three candidate dictionaries `scenario_options` built at lines
403-422 from a chosen premise `themeBase` and activity `settingDetail`. -/
def makeSeedVariants (theme themeBase settingDetail : String) (d : SeedDraw) : List Seed :=
  [{ problem := themeBase ++ " while " ++ settingDetail,
     activity := settingDetail,
     emotion := pyChoice emotionChoices1 d.emotionIdx1,
     resolution := pyChoice resolutionChoices1 d.resolutionIdx1 },
   { problem := settingDetail ++ " becomes challenging when " ++ pyLower themeBase,
     activity := settingDetail,
     emotion := pyChoice emotionChoices2 d.emotionIdx2,
     resolution := pyChoice resolutionChoices2 d.resolutionIdx2 },
   { problem := "While " ++ settingDetail ++ ", character learns about " ++ pyLower theme,
     activity := settingDetail,
     emotion := pyChoice emotionChoices3 d.emotionIdx3,
     resolution := pyChoice resolutionChoices3 d.resolutionIdx3 }]

/-- One iteration of the generation loop (lines 398-424): pick a premise and
an activity at random, build the three candidate dictionaries, and keep one
of them at random. -/
def makeSeed (theme : String) (themeScenarios settingAdjs : List String) (d : SeedDraw) : Seed :=
  let themeBase := pyChoice themeScenarios d.premiseIdx
  let settingDetail := pyChoice settingAdjs d.activityIdx
  pyChoice (makeSeedVariants theme themeBase settingDetail d) d.variantIdx

/-- Result of one `get_random_story_seed` call: the returned seed, the
in-memory cache afterwards, whether the generation pass ran, and the cache
contents handed to `save_cache` (`none` when `save_cache` was not called). -/
structure SeedBankResult where
  seed : Seed
  cache : String → List Seed
  generatedPass : Bool
  savedCache : Option (String → List Seed)

/-- `StorySeedBank.get_random_story_seed` (lines 362-431): under the key
`f"{theme}_{setting}"`, either return a random element of a non-empty cached
pool unchanged, or generate 10 seeds, store them under the key, save the
cache and return a random one of the 10.  `draws i` supplies the random
outcomes of loop iteration `i` and `pickIdx` the final `random.choice`. -/
def getRandomStorySeed (cache : String → List Seed) (theme setting : String)
    (draws : Nat → SeedDraw) (pickIdx : Nat) : SeedBankResult :=
  let cacheKey := theme ++ "_" ++ setting
  if cache cacheKey ≠ [] then
    { seed := pyChoice (cache cacheKey) pickIdx,
      cache := cache, generatedPass := false, savedCache := none }
  else
    let themeScenarios := themeScenariosFor theme
    let settingAdjs := settingAdjustmentsFor setting
    let specificScenarios := (List.range 10).map (fun i => makeSeed theme themeScenarios settingAdjs (draws i))
    let cache2 := fun k => if k = cacheKey then specificScenarios else cache k
    { seed := pyChoice specificScenarios pickIdx,
      cache := cache2, generatedPass := true, savedCache := some cache2 }

/-- `StorySeedBank.get_specific_scenario` (lines 433-473): default falsy
arguments, fetch a seed, pick a main character at random, and compose the
scenario sentence; a random supporting character helps when one exists.
Returns the sentence together with the cache left by the seed fetch. -/
def getSpecificScenario (cache : String → List Seed) (theme setting : String)
    (characters : List String) (draws : Nat → SeedDraw)
    (pickIdx mainIdx helperIdx : Nat) : String × (String → List Seed) :=
  let theme := if theme = "" then "Friendship" else theme
  let setting := if setting = "" then "Playground" else setting
  let characters := if characters = [] then ["The main character"] else characters
  let r := getRandomStorySeed cache theme setting draws pickIdx
  let seed := r.seed
  let mainCharacter := if characters ≠ [] then pyChoice characters mainIdx else "The main character"
  let scen := mainCharacter ++ " " ++ seed.problem ++ ". "
  let scen := scen ++ "They feel " ++ seed.emotion ++ " about this. "
  let supportingChars := characters.filter (fun c => c ≠ mainCharacter)
  let scen :=
    if supportingChars ≠ [] then
      scen ++ pyChoice supportingChars helperIdx ++ " helps them by " ++ seed.resolution ++ ". "
    else
      scen ++ "They solve this by " ++ seed.resolution ++ ". "
  let scen := scen ++ "This all happens while " ++ seed.activity ++ " at the " ++ pyLower setting ++ "."
  (scen, r.cache)

/-- The seed value `get_specific_scenario` obtains from the seed bank at
line 451 (to be applied to the already-defaulted theme and setting). -/
def fetchedSeed (cache : String → List Seed) (theme setting : String)
    (draws : Nat → SeedDraw) (pickIdx : Nat) : Seed :=
  (getRandomStorySeed cache theme setting draws pickIdx).seed
/-! ## Prompt builder, `app/llm/base.py`

`LLMProvider.create_story_prompt` (lines 85-189) resolves the character
list, obtains a scenario sentence from the seed bank, draws a decorative
random seed and formats the prompt text. -/

/-- The roster of a universe, `UNIVERSE_CHARACTERS.get(universe, [])`
(lines 14-39). -/
def universeCharactersFor (universeName : String) : List String :=
  lookupCatalog universeCharactersCatalog universeName

/-- An element of a Python `characters` list: either a string, or a
dictionary, recorded as whether it has a `"character_name"` key, the value
under that key when that value is a string, and the `str()` rendering of the
dictionary (which the string branch of the parser would use). -/
inductive CharEntry
| str (v : String)
| dict (hasNameKey : Bool) (strName : Option String) (reprStr : String)
deriving DecidableEq

/-- The dynamic value of `story_elements.get("characters", [])`: a list or a
comma-separated string (`.list []` also stands for the falsy `None`). -/
inductive CharactersField
| list (items : List CharEntry)
| str (s : String)
deriving DecidableEq

/-- Python `str()` applied to a list element in the branch
`character_names = [str(c) for c in input_characters]`. -/
def charEntryStr : CharEntry → String
  | .str v => v
  | .dict _ _ r => r

/-- Lines 104-119: extract `character_names` from the input `characters`
value.  A non-empty list whose first element is a dict with a
`"character_name"` key keeps exactly the string-valued `"character_name"`
fields; any other non-empty list is mapped through `str`; a non-empty string
is split on commas and stripped; falsy input yields no names. -/
def parseCharacterNames : CharactersField → List String
  | .list [] => []
  | .list (first :: rest) =>
    match first with
    | .dict true _ _ =>
      (first :: rest).filterMap (fun c =>
        match c with
        | .dict true (some nm) _ => some nm
        | _ => none)
    | _ => (first :: rest).map charEntryStr
  | .str s => if s = "" then [] else (pySplitChar ',' s).map pyStrip

/-- Lines 104-135: the resolved character name list of
`create_story_prompt`.  `sampled` is the outcome of
`random.sample(universe_chars, k)` with `k = random.randint(1,
min(len(universe_chars), 3))`, used only when no characters were supplied
and the universe is recognized; then the child name is appended unless
falsy or already present, and a placeholder guarantees non-emptiness. -/
def resolveCharacterNames (universeName childName : String) (field : CharactersField)
    (sampled : List String) : List String :=
  let names := parseCharacterNames field
  let names := if names = [] then (if universeCharactersFor universeName ≠ [] then sampled else names) else names
  let names := if childName ≠ "" ∧ childName ∉ names then names ++ [childName] else names
  if names = [] then ["The main character"] else names

/-- Lines 152-159: map the story length label to a target word count via
Python substring tests. -/
def storyLengthTargetWords (storyLength : String) : Nat :=
  if pyContains storyLength "Very Short" then 300
  else if pyContains storyLength "Short" then 600
  else if pyContains storyLength "Medium" then 900
  else 1200

/-- Lines 148-186: the formatted prompt text, given the already-resolved
character names, the scenario sentence and the decorative random seed. -/
def buildPromptText (childName universeName setting theme storyLength : String)
    (characterNames : List String) (scenarioText : String) (storySeed : Nat) : String :=
  let charactersStr := pyJoinSep ", " characterNames
  let targetWords := storyLengthTargetWords storyLength
  "\nCreate a story for a toddler or pre-schooler named " ++ childName ++
  " with the following elements:\n\nUniverse: " ++ universeName ++
  "\nSetting: " ++ setting ++
  "\nTheme: " ++ theme ++
  "\n\nSPECIFIC SCENARIO TO USE: " ++ scenarioText ++
  "\n\nStory should be approximately " ++ toString targetWords ++
  " words, taking about " ++ storyLength ++
  " to read aloud.\n\nMake the story age-appropriate for a 2-5 year old:\n- Simple language, short sentences\n- Clear beginning, middle, end\n- Repetition, simple morals, gentle humor\n- Sensory details kids can relate to\n- Some repeating phrases for fun\n- Use characters from the universe if possible. Potential characters: " ++
  charactersStr ++
  ". Try to naturally include 1-2 characters from this list in the story.\n\nFormat with a title and short paragraphs. Unique story each time.\n\nRandom seed: " ++
  toString storySeed ++
  "\n\nONLY RETURN the TITLE and the STORY TEXT. DO NOT RETURN ANY FORMATTING, ASTERISKS, OR ANYTHING ELSE.\n"

/-- The whole of `create_story_prompt` (lines 85-189): resolve characters,
fetch a scenario sentence from the seed bank, and format the prompt with a
random story seed. -/
def createStoryPrompt (universeName setting theme storyLength childName : String)
    (field : CharactersField) (sampled : List String)
    (cache : String → List Seed) (draws : Nat → SeedDraw)
    (pickIdx mainIdx helperIdx storySeed : Nat) : String :=
  let characterNames := resolveCharacterNames universeName childName field sampled
  let scenarioText := (getSpecificScenario cache theme setting characterNames draws pickIdx mainIdx helperIdx).1
  buildPromptText childName universeName setting theme storyLength characterNames scenarioText storySeed

/-! ## Provider factory, `app/llm/factory.py`, and the fallback in
`app/core/story_generator.py` (lines 37-43). -/

/-- A constructed LLM provider with the configuration the factory passes to
its constructor (lines 37-65 of `factory.py`; environment-derived values are
taken from `ProviderEnv`). -/
inductive LLMProviderSpec
| openai (model : String) (apiKey : Option String)
| claude (model : String) (apiKey : Option String)
| azureOpenai (deploymentName : Option String) (apiKey : Option String)
    (apiBase : Option String) (apiVersion : String)
| localOpenai (model : String) (apiKey : Option String) (apiBase : Option String)
deriving DecidableEq

/-- The environment variables the factory consults. -/
structure ProviderEnv where
  azureDeployment : Option String
  localModel : Option String
  localApiUrl : Option String

/-- `LLMFactory.get_provider` on a provider-name string (lines 16-67):
lower-case the name, dispatch on the recognized names, and raise
`ValueError` (modelled as `.error`) on anything else. -/
def llmGetProvider (env : ProviderEnv) (providerName : String) : Except String LLMProviderSpec :=
  let p := pyLower providerName
  if p = "openai" then
    .ok (.openai "gpt-4o" none)
  else if p = "claude" ∨ p = "anthropic" then
    .ok (.claude "claude-3-haiku-20240307" none)
  else if p = "azure" ∨ p = "azure_openai" ∨ p = "azure-openai" then
    .ok (.azureOpenai env.azureDeployment none none "2023-05-15")
  else if p = "local" ∨ p = "local_openai" ∨ p = "local-openai" then
    .ok (.localOpenai (env.localModel.getD "llama3") none env.localApiUrl)
  else
    .error ("Unsupported LLM provider: " ++ p)

/-- The names `llmGetProvider` recognizes (after lower-casing). -/
def recognizedLLMProviderNames : List String :=
  ["openai", "claude", "anthropic", "azure", "azure_openai", "azure-openai",
   "local", "local_openai", "local-openai"]

/-- `StoryGenerator.__init__` lines 37-43: construct the requested LLM
provider, and on a `ValueError` fall back to the `"openai"` provider. -/
def storyGeneratorSelectLLM (env : ProviderEnv) (providerName : String) :
    Except String LLMProviderSpec :=
  match llmGetProvider env providerName with
  | .ok p => .ok p
  | .error _ => llmGetProvider env "openai"

/-! ## Streaming orchestrator, `app/endpoints/stories.py` lines 583-676

The `generate_streaming_content` loop accumulates text deltas into
`full_text` and `chunk_buffer`; once the buffer reaches 50 characters it is
segmented into sentences and, when more than one sentence results, all but
the last are joined with `" "` and forwarded to streaming synthesis while
the last stays in the buffer; after the text stream ends the remaining
buffer is flushed.  The pysbd segmenter (`clean=False`) is modelled as an
oracle function `segment` about which theorems assume only that it preserves
content. -/

/-- The orchestrator state: `full_text`, `chunk_buffer`, and the list of
`text_to_process` values forwarded to the synthesis provider so far. -/
structure StreamState where
  fullText : String
  chunkBuffer : String
  forwarded : List String
deriving DecidableEq

/-- State before the first delta arrives (lines 584-585). -/
def initialStreamState : StreamState := ⟨"", "", []⟩

/-- One pass of the loop body (lines 590-608) for one text delta. -/
def processDelta (segment : String → List String) (st : StreamState) (delta : String) :
    StreamState :=
  let fullText := st.fullText ++ delta
  let buffer := st.chunkBuffer ++ delta
  if 50 ≤ buffer.length then
    let sentences := segment buffer
    if 1 < sentences.length then
      { fullText := fullText,
        chunkBuffer := sentences.getLastD "",
        forwarded := st.forwarded ++ [pyJoinSep " " sentences.dropLast] }
    else
      { fullText := fullText, chunkBuffer := buffer, forwarded := st.forwarded }
  else
    { fullText := fullText, chunkBuffer := buffer, forwarded := st.forwarded }

/-- The whole text loop over a finite delta sequence. -/
def runStream (segment : String → List String) (deltas : List String) : StreamState :=
  deltas.foldl (processDelta segment) initialStreamState

/-- All text handed to streaming synthesis: the forwarded ready chunks plus
the final flush of a non-empty remaining buffer (lines 633-640). -/
def flushedOutputs (segment : String → List String) (deltas : List String) : List String :=
  let st := runStream segment deltas
  st.forwarded ++ (if st.chunkBuffer = "" then [] else [st.chunkBuffer])

/-- A segmenter that loses no characters: its sentences concatenate back to
the input and it never returns an empty list.  pysbd with `clean=False`
has this property (sentences keep their trailing whitespace). -/
def contentPreservingSegmenter (segment : String → List String) : Prop :=
  ∀ s : String, concatAll (segment s) = s ∧ segment s ≠ []

/-- First sentence of the counterexample input. -/
def cexPart1 : String := "The dog ran far away today. "

/-- Second sentence of the counterexample input. -/
def cexPart2 : String := "The cat slept on the mat. "

/-- Trailing incomplete sentence of the counterexample input. -/
def cexPart3 : String := "Then the"

/-- A 62-character delta that segments into three sentences. -/
def cexInput : String := cexPart1 ++ cexPart2 ++ cexPart3

/-- A content-preserving segmenter that splits `cexInput` into its three
sentences (as pysbd does for such text) and leaves everything else whole. -/
def cexSegmenter (s : String) : List String :=
  if s = cexInput then [cexPart1, cexPart2, cexPart3] else [s]

/-! ## Title derivation

Identical code appears in `app/endpoints/stories.py` lines 668-676 and
`app/core/story_generator.py` lines 171-179. -/

/-- The title extraction: default `"Bedtime Story"`; when the first line of
the stripped transcript does not start with `"Once upon a time"`, take that
line stripped and remove the markers `"Title:"`, `"# "`, `"## "` in
sequence, re-stripping after each removal. -/
def extractTitle (storyText : String) : String :=
  let storyLines := pySplitChar '\n' (pyStrip storyText)
  let firstLine := storyLines.headD ""
  if !storyLines.isEmpty && !pyStartsWith firstLine "Once upon a time" then
    let t0 := pyStrip firstLine
    let t1 := if pyStartsWith t0 "Title:" then pyStrip (pyDrop t0 "Title:".length) else t0
    let t2 := if pyStartsWith t1 "# " then pyStrip (pyDrop t1 "# ".length) else t1
    if pyStartsWith t2 "## " then pyStrip (pyDrop t2 "## ".length) else t2
  else
    "Bedtime Story"

/-- The title markers of the claim, in the order the code checks them. -/
def titleMarkers : List String := ["Title:", "# ", "## "]

/-- Marker stripping as the specification words it: leading markers are
stripped (each marker considered once, in order), re-stripping whitespace. -/
def stripTitleMarkers (t : String) : String :=
  titleMarkers.foldl
    (fun cur marker => if pyStartsWith cur marker then pyStrip (pyDrop cur marker.length) else cur) t

/-- Specification-side title function, written from the spec sentence: the
first line of the transcript with leading markers stripped, falling back to
`"Bedtime Story"` when the opening line is generic. -/
def titleSpec (storyText : String) : String :=
  let firstLine := (pySplitChar '\n' (pyStrip storyText)).headD ""
  if pyStartsWith firstLine "Once upon a time" then "Bedtime Story"
  else stripTitleMarkers (pyStrip firstLine)
/-! ## Helper lemmas -/

/-- A choice by oracle index is an element of any non-empty list. -/
theorem pyChoice_mem {α : Type} [Inhabited α] (l : List α) (i : Nat) (h : l ≠ []) :
    pyChoice l i ∈ l := by
  have hlen : 0 < l.length := List.length_pos.mpr h
  have hlt : i % l.length < l.length := Nat.mod_lt _ hlen
  unfold pyChoice
  rw [List.getD_eq_getElem l default hlt]
  exact List.getElem_mem hlt

/-- A successful weighted pick returns an element of the option list. -/
theorem weightedChoicePick_mem {options : List String} {idx : Nat} {c : String}
    (h : weightedChoicePick options idx = some c) : c ∈ options := by
  unfold weightedChoicePick at h
  split at h
  · exact absurd h (by simp)
  · next hne =>
    rw [Option.some_inj] at h
    exact h ▸ pyChoice_mem options idx hne

/-- Splitting on a character always yields at least one piece. -/
theorem splitCharAux_ne_nil (c : Char) : ∀ (cs cur : List Char), splitCharAux c cs cur ≠ [] := by
  intro cs
  induction cs with
  | nil => intro cur; simp [splitCharAux]
  | cons d rest ih =>
    intro cur
    rw [splitCharAux]
    split
    · simp
    · exact ih _

/-- Python `split` never returns an empty list. -/
theorem pySplitChar_ne_nil (c : Char) (s : String) : pySplitChar c s ≠ [] :=
  splitCharAux_ne_nil c s.data []

/-- Concatenation of string lists distributes over list append. -/
theorem concatAll_append (l₁ l₂ : List String) :
    concatAll (l₁ ++ l₂) = concatAll l₁ ++ concatAll l₂ := by
  induction l₁ with
  | nil => simp [concatAll, String.empty_append]
  | cons a rest ih => simp [concatAll, ih, String.append_assoc]

/-! ## C9 -/

/-- C9: for every provider-name string not among the recognized
generation-provider names (after lower-casing), `LLMFactory.get_provider`
raises a `ValueError` instead of returning a provider, and
`StoryGenerator.__init__` catches the failure and falls back to
constructing the baseline `"openai"` provider. -/
theorem unknown_provider_raises_and_falls_back (env : ProviderEnv) (name : String)
    (h : pyLower name ∉ recognizedLLMProviderNames) :
    (∃ msg, llmGetProvider env name = .error msg) ∧
    storyGeneratorSelectLLM env name = .ok (.openai "gpt-4o" none) := by
  simp only [recognizedLLMProviderNames, List.mem_cons, List.not_mem_nil, or_false,
    not_or] at h
  obtain ⟨h1, h2, h3, h4, h5, h6, h7, h8, h9⟩ := h
  have herr : llmGetProvider env name = .error ("Unsupported LLM provider: " ++ pyLower name) := by
    unfold llmGetProvider
    simp [h1, h2, h3, h4, h5, h6, h7, h8, h9]
  refine ⟨⟨_, herr⟩, ?_⟩
  unfold storyGeneratorSelectLLM
  rw [herr]
  rfl

/-- Witness for C9 at the unrecognized name `"gemini"`. -/
theorem unknown_provider_witness :
    (∃ msg, llmGetProvider ⟨none, none, none⟩ "gemini" = .error msg) ∧
    storyGeneratorSelectLLM ⟨none, none, none⟩ "gemini" = .ok (.openai "gpt-4o" none) :=
  unknown_provider_raises_and_falls_back ⟨none, none, none⟩ "gemini" (by decide)

/-! ## C8 -/

/-- C8: the derived title equals the specification-side description: the
first line of the stripped transcript with the leading `"Title:"` and
markdown-heading markers stripped, and the fallback `"Bedtime Story"`
exactly when the opening line starts with `"Once upon a time"`. -/
theorem title_derivation_matches_spec (storyText : String) :
    extractTitle storyText = titleSpec storyText := by
  have hne : (pySplitChar '\n' (pyStrip storyText)).isEmpty = false := by
    rw [List.isEmpty_eq_false]
    exact pySplitChar_ne_nil '\n' (pyStrip storyText)
  unfold extractTitle titleSpec stripTitleMarkers titleMarkers
  simp only [hne, Bool.not_false, Bool.true_and, List.foldl]
  cases hb : pyStartsWith ((pySplitChar '\n' (pyStrip storyText)).headD "") "Once upon a time" <;>
    simp [hb]

/-! ## C7 -/

/-- C7: two prompt-builder calls with identical story elements, identical
resolved character list, identical injected scenario sentence and identical
injected seed produce the same text (the builder is a pure function of
these inputs), and two calls differing only in the seed differ only in the
seed substring: the prompt is `p ++ toString seed ++ q` for a prefix `p`
and suffix `q` that do not depend on the seed. -/
theorem prompt_differs_only_in_seed
    (childName universeName setting theme storyLength : String)
    (characterNames : List String) (scenarioText : String) :
    ∃ p q : String, ∀ storySeed : Nat,
      buildPromptText childName universeName setting theme storyLength
        characterNames scenarioText storySeed = p ++ toString storySeed ++ q := by
  refine ⟨"\nCreate a story for a toddler or pre-schooler named " ++ childName ++
    " with the following elements:\n\nUniverse: " ++ universeName ++
    "\nSetting: " ++ setting ++
    "\nTheme: " ++ theme ++
    "\n\nSPECIFIC SCENARIO TO USE: " ++ scenarioText ++
    "\n\nStory should be approximately " ++ toString (storyLengthTargetWords storyLength) ++
    " words, taking about " ++ storyLength ++
    " to read aloud.\n\nMake the story age-appropriate for a 2-5 year old:\n- Simple language, short sentences\n- Clear beginning, middle, end\n- Repetition, simple morals, gentle humor\n- Sensory details kids can relate to\n- Some repeating phrases for fun\n- Use characters from the universe if possible. Potential characters: " ++
    pyJoinSep ", " characterNames ++
    ". Try to naturally include 1-2 characters from this list in the story.\n\nFormat with a title and short paragraphs. Unique story each time.\n\nRandom seed: ",
    "\n\nONLY RETURN the TITLE and the STORY TEXT. DO NOT RETURN ANY FORMATTING, ASTERISKS, OR ANYTHING ELSE.\n",
    fun storySeed => ?_⟩
  simp only [buildPromptText, String.append_assoc]

/-! ## C10 -/

/-- The character draw loop keeps the accumulator duplicate-free: every
draw takes an element of the available pool, appends it, and erases it
from the pool. -/
theorem drawCharacters_nodup (picks : Nat → Nat) :
    ∀ (n : Nat) (available acc : List String), acc.Nodup → available.Nodup →
      (∀ x ∈ acc, x ∉ available) → (drawCharacters picks n available acc).Nodup := by
  intro n
  induction n with
  | zero => intro available acc hacc _ _; simpa [drawCharacters] using hacc
  | succ m ih =>
    intro available acc hacc hav hdisj
    rw [drawCharacters]
    split
    · exact hacc
    · split
      · exact ih available acc hacc hav hdisj
      · next c hpick =>
        have hc : c ∈ available := weightedChoicePick_mem hpick
        have hcacc : c ∉ acc := fun hmem => (hdisj c hmem) hc
        apply ih
        · simp [List.nodup_append, hacc, hcacc]
        · exact hav.erase c
        · intro x hx
          rcases List.mem_append.mp hx with hxa | hxc
          · exact fun hx' => (hdisj x hxa) (List.erase_subset _ _ hx')
          · have : x = c := by simpa using hxc
            subst this
            exact hav.not_mem_erase
/-- C10: every characters list produced by `randomize_story_elements` over
the configured character pool is pairwise distinct (each weighted draw
removes the chosen name from the available pool and a preference-supplied
child name is excluded from the pool up front), and the favorite-character
step of `apply_preferences` preserves distinctness because it appends the
favorite only when it is not already present. -/
theorem randomized_characters_are_distinct (childName : Option String)
    (numDraws : Nat) (picks : Nat → Nat) (favorite : Option String) (coin : Bool) :
    (randomizeCharacters storyCharactersPool childName numDraws picks).Nodup ∧
    (applyFavoriteCharacter (randomizeCharacters storyCharactersPool childName numDraws picks)
      favorite coin).Nodup := by
  have hmain : (randomizeCharacters storyCharactersPool childName numDraws picks).Nodup := by
    simp only [randomizeCharacters]
    apply drawCharacters_nodup
    · cases childName with
      | none => exact List.nodup_nil
      | some c =>
        dsimp only
        split
        · exact List.nodup_nil
        · exact List.nodup_singleton c
    · exact (by decide : storyCharactersPool.Nodup).filter _
    · intro x hx hx'
      have hmem := (List.mem_filter.mp hx').2
      simp at hmem
      exact hmem hx
  refine ⟨hmain, ?_⟩
  unfold applyFavoriteCharacter
  cases favorite with
  | none => exact hmain
  | some f =>
    dsimp only
    split
    · split
      · next hnotmem =>
        simp [List.nodup_append, hmain, List.disjoint_singleton, hnotmem]
      · exact hmain
    · exact hmain

/-! ## C2 -/

/-- Indexing a mapped list below its length applies the function to the
corresponding source element. -/
theorem getD_map_lt {α β : Type} (g : α → β) (l : List α) (i : Nat) (d : β) (d' : α)
    (h : i < l.length) : (l.map g).getD i d = g (l.getD i d') := by
  rw [List.getD_eq_getElem (l.map g) d (by simpa using h), List.getD_eq_getElem l d' h,
    List.getElem_map]

/-- Dividing every entry of a list by `t` divides its sum by `t`. -/
theorem sum_map_div (l : List ℚ) (t : ℚ) : (l.map (fun x => x / t)).sum = l.sum / t := by
  induction l with
  | nil => simp
  | cons a rest ih => simp [ih, add_div]

/-- Summing a constant over a list multiplies it by the length. -/
theorem sum_map_const_q {α : Type} (l : List α) (c : ℚ) :
    (l.map (fun _ => c)).sum = l.length * c := by
  induction l with
  | nil => simp
  | cons a rest ih =>
    simp only [List.map_cons, List.sum_cons, ih, List.length_cons]
    push_cast
    ring

/-- Every inverse-frequency weight is positive. -/
theorem inverseFrequencyWeights_pos (f : String → Nat) (options : List String) :
    ∀ w ∈ inverseFrequencyWeights f options, 0 < w := by
  intro w hw
  simp only [inverseFrequencyWeights, List.mem_map] at hw
  obtain ⟨o, _, rfl⟩ := hw
  positivity

/-- The total inverse-frequency weight of a non-empty option list is
positive. -/
theorem inverseFrequencyWeights_sum_pos (f : String → Nat) (options : List String)
    (h : options ≠ []) : 0 < (inverseFrequencyWeights f options).sum := by
  apply List.sum_pos
  · exact inverseFrequencyWeights_pos f options
  · simpa [inverseFrequencyWeights] using h

/-- The weight at position `i` is the inverse of that option frequency
plus one. -/
theorem inverseFrequencyWeights_getD (f : String → Nat) (options : List String) (i : Nat)
    (h : i < options.length) :
    (inverseFrequencyWeights f options).getD i 0 = 1 / ((f (options.getD i "") : ℚ) + 1) := by
  unfold inverseFrequencyWeights
  exact getD_map_lt _ _ _ _ _ h

/-- C2: the selection distribution of `_weighted_random_choice` satisfies
the weighting property: each candidate weight is `1 / (frequency + 1)`,
the normalized weights of a non-empty candidate list always sum to 1, the
selection probability is strictly decreasing in the historical frequency
whenever the weighted branch runs (at least two candidates with frequency
data present), and with no frequency data or at most one candidate every
candidate receives the uniform probability `1 / len`. -/
theorem weighted_selection_properties :
    (∀ (f : String → Nat) (options : List String) (i : Nat), i < options.length →
      (inverseFrequencyWeights f options).getD i 0 = 1 / ((f (options.getD i "") : ℚ) + 1)) ∧
    (∀ (freqTable : Option (String → Nat)) (options : List String), options ≠ [] →
      (weightedChoiceDist freqTable options).sum = 1) ∧
    (∀ (f : String → Nat) (options : List String) (i j : Nat),
      2 ≤ options.length → i < options.length → j < options.length →
      f (options.getD i "") < f (options.getD j "") →
      (weightedChoiceDist (some f) options).getD j 0 <
        (weightedChoiceDist (some f) options).getD i 0) ∧
    (∀ (freqTable : Option (String → Nat)) (options : List String) (i : Nat),
      (options.length = 1 ∨ freqTable = none) → i < options.length →
      (weightedChoiceDist freqTable options).getD i 0 = (options.length : ℚ)⁻¹) := by
  have huniform : ∀ (options : List String) (i : Nat), i < options.length →
      (uniformDist options).getD i 0 = (options.length : ℚ)⁻¹ := by
    intro options i hi
    unfold uniformDist
    exact getD_map_lt _ _ _ _ "" hi
  have husum : ∀ options : List String, options ≠ [] → (uniformDist options).sum = 1 := by
    intro options h
    unfold uniformDist
    rw [sum_map_const_q]
    have hl : (options.length : ℚ) ≠ 0 := by
      exact_mod_cast (List.length_pos.mpr h).ne'
    rw [mul_inv_cancel₀ hl]
  refine ⟨fun f options i h => inverseFrequencyWeights_getD f options i h, ?_, ?_, ?_⟩
  · intro ft options h
    unfold weightedChoiceDist
    rw [if_neg h]
    cases ft with
    | none => exact husum options h
    | some f =>
      dsimp only
      split
      · exact husum options h
      · simp only [normalizedWeights]
        rw [sum_map_div, div_self (ne_of_gt (inverseFrequencyWeights_sum_pos f options h))]
  · intro f options i j h2 hi hj hfreq
    have hne : options ≠ [] := by
      intro he
      rw [he] at hi
      exact absurd hi (by simp)
    unfold weightedChoiceDist
    rw [if_neg hne]
    dsimp only
    rw [if_neg (by omega)]
    simp only [normalizedWeights]
    have hlen : (inverseFrequencyWeights f options).length = options.length := by
      simp [inverseFrequencyWeights]
    rw [getD_map_lt (fun w => w / (inverseFrequencyWeights f options).sum) _ j 0 0
        (by rw [hlen]; exact hj),
      getD_map_lt (fun w => w / (inverseFrequencyWeights f options).sum) _ i 0 0
        (by rw [hlen]; exact hi)]
    apply div_lt_div_of_pos_right ?_ (inverseFrequencyWeights_sum_pos f options hne)
    rw [inverseFrequencyWeights_getD f options i hi, inverseFrequencyWeights_getD f options j hj]
    apply one_div_lt_one_div_of_lt
    · positivity
    · exact_mod_cast Nat.add_lt_add_right hfreq 1
  · intro ft options i hcase hi
    have hne : options ≠ [] := by
      intro he
      rw [he] at hi
      exact absurd hi (by simp)
    unfold weightedChoiceDist
    rw [if_neg hne]
    rcases hcase with hlen1 | hftnone
    · cases ft with
      | none => exact huniform options i hi
      | some f =>
        dsimp only
        rw [if_pos (by omega)]
        exact huniform options i hi
    · subst hftnone
      exact huniform options i hi

/-- Witness for C2 at the specification example: frequencies
`{"Paw Patrol": 10, "Bluey": 0}` over `["Paw Patrol", "Bluey"]` make Bluey
strictly more likely than Paw Patrol, with total probability 1. -/
theorem weighted_selection_witness :
    (weightedChoiceDist (some (fun s => if s = "Paw Patrol" then 10 else 0))
      ["Paw Patrol", "Bluey"]).sum = 1 ∧
    (weightedChoiceDist (some (fun s => if s = "Paw Patrol" then 10 else 0))
      ["Paw Patrol", "Bluey"]).getD 0 0 <
      (weightedChoiceDist (some (fun s => if s = "Paw Patrol" then 10 else 0))
        ["Paw Patrol", "Bluey"]).getD 1 0 :=
  ⟨weighted_selection_properties.2.1 _ _ (by decide),
   weighted_selection_properties.2.2.1 _ _ 1 0 (by decide) (by decide) (by decide) (by decide)⟩
/-! ## C3 -/

/-- C3: once the cache entry for `f"{theme}_{setting}"` holds a non-empty
pool, `get_random_story_seed` never runs the generate-10-seeds pass again:
it leaves the cache untouched, hands nothing to `save_cache`, and returns
an element of the existing cached pool, with the uniform choice index `i`
selecting exactly the `i`-th cached seed. -/
theorem cached_pool_is_reused (cache : String → List Seed) (theme setting : String)
    (draws : Nat → SeedDraw) (pickIdx : Nat)
    (h : cache (theme ++ "_" ++ setting) ≠ []) :
    (getRandomStorySeed cache theme setting draws pickIdx).generatedPass = false ∧
    (getRandomStorySeed cache theme setting draws pickIdx).cache = cache ∧
    (getRandomStorySeed cache theme setting draws pickIdx).savedCache = none ∧
    (getRandomStorySeed cache theme setting draws pickIdx).seed ∈
      cache (theme ++ "_" ++ setting) ∧
    (∀ i, i < (cache (theme ++ "_" ++ setting)).length →
      (getRandomStorySeed cache theme setting draws i).seed =
        (cache (theme ++ "_" ++ setting)).getD i default) := by
  have hunf : ∀ k : Nat, getRandomStorySeed cache theme setting draws k =
      { seed := pyChoice (cache (theme ++ "_" ++ setting)) k,
        cache := cache, generatedPass := false, savedCache := none } := by
    intro k
    simp only [getRandomStorySeed]
    rw [if_pos h]
  refine ⟨by rw [hunf], by rw [hunf], by rw [hunf], ?_, ?_⟩
  · rw [hunf]
    exact pyChoice_mem _ _ h
  · intro i hi
    rw [hunf]
    unfold pyChoice
    rw [Nat.mod_eq_of_lt hi]

/-- Witness for C3: a cache that already holds one seed under the key
`"Friendship_Beach"` is reused without a generation pass. -/
theorem cached_pool_witness :
    (getRandomStorySeed
      (fun k => if k = "Friendship_Beach" then [⟨"p", "a", "happy", "teamwork"⟩] else [])
      "Friendship" "Beach" (fun _ => default) 0).generatedPass = false ∧
    (getRandomStorySeed
      (fun k => if k = "Friendship_Beach" then [⟨"p", "a", "happy", "teamwork"⟩] else [])
      "Friendship" "Beach" (fun _ => default) 0).seed ∈
      (fun k => if k = "Friendship_Beach" then [(⟨"p", "a", "happy", "teamwork"⟩ : Seed)] else [])
        ("Friendship" ++ "_" ++ "Beach") :=
  ⟨(cached_pool_is_reused _ "Friendship" "Beach" _ 0 (by decide)).1,
   (cached_pool_is_reused _ "Friendship" "Beach" _ 0 (by decide)).2.2.2.1⟩

/-! ## C6 -/

/-- The theme premise list is never empty (catalog hit or fallback). -/
theorem themeScenariosFor_ne_nil (theme : String) : themeScenariosFor theme ≠ [] := by
  simp only [themeScenariosFor]
  split
  · simp [fallbackThemeScenarios]
  · next hne => exact hne

/-- The setting activity list is never empty (catalog hit or fallback). -/
theorem settingAdjustmentsFor_ne_nil (setting : String) :
    settingAdjustmentsFor setting ≠ [] := by
  simp only [settingAdjustmentsFor]
  split
  · simp [fallbackSettingAdjustments]
  · next hne => exact hne

/-- Every generated seed combines a premise of the theme list and an
activity of the setting list through one of the three templates, with the
emotion and resolution tags drawn from that template 5-value sets. -/
theorem makeSeed_shape (theme : String) (ts sa : List String) (hts : ts ≠ []) (hsa : sa ≠ [])
    (d : SeedDraw) :
    ∃ tb ∈ ts, ∃ adj ∈ sa,
      (makeSeed theme ts sa d).activity = adj ∧
      (((makeSeed theme ts sa d).problem = tb ++ " while " ++ adj ∧
        (makeSeed theme ts sa d).emotion ∈ emotionChoices1 ∧
        (makeSeed theme ts sa d).resolution ∈ resolutionChoices1) ∨
       ((makeSeed theme ts sa d).problem = adj ++ " becomes challenging when " ++ pyLower tb ∧
        (makeSeed theme ts sa d).emotion ∈ emotionChoices2 ∧
        (makeSeed theme ts sa d).resolution ∈ resolutionChoices2) ∨
       ((makeSeed theme ts sa d).problem = "While " ++ adj ++ ", character learns about " ++ pyLower theme ∧
        (makeSeed theme ts sa d).emotion ∈ emotionChoices3 ∧
        (makeSeed theme ts sa d).resolution ∈ resolutionChoices3)) := by
  refine ⟨pyChoice ts d.premiseIdx, pyChoice_mem _ _ hts,
    pyChoice sa d.activityIdx, pyChoice_mem _ _ hsa, ?_⟩
  have hmem : makeSeed theme ts sa d ∈
      makeSeedVariants theme (pyChoice ts d.premiseIdx) (pyChoice sa d.activityIdx) d := by
    unfold makeSeed
    exact pyChoice_mem _ _ (by simp [makeSeedVariants])
  simp only [makeSeedVariants, List.mem_cons, List.not_mem_nil, or_false] at hmem
  rcases hmem with hv | hv | hv <;> rw [hv]
  · exact ⟨rfl, Or.inl ⟨rfl, pyChoice_mem _ _ (by simp [emotionChoices1]),
      pyChoice_mem _ _ (by simp [resolutionChoices1])⟩⟩
  · exact ⟨rfl, Or.inr (Or.inl ⟨rfl, pyChoice_mem _ _ (by simp [emotionChoices2]),
      pyChoice_mem _ _ (by simp [resolutionChoices2])⟩)⟩
  · exact ⟨rfl, Or.inr (Or.inr ⟨rfl, pyChoice_mem _ _ (by simp [emotionChoices3]),
      pyChoice_mem _ _ (by simp [resolutionChoices3])⟩)⟩

/-- C6: when no non-empty cache entry exists for the pair, exactly 10 new
seeds are generated, each built from a random premise and a random
activity with an emotion tag and a resolution tag from fixed 5-value sets,
combined by one of the three textual templates; all 10 are stored under
the cache key, the cache containing them is handed to `save_cache`, other
keys are untouched, and the returned seed is one of the stored 10. -/
theorem seed_generation_miss_path (cache : String → List Seed) (theme setting : String)
    (draws : Nat → SeedDraw) (pickIdx : Nat)
    (h : cache (theme ++ "_" ++ setting) = []) :
    (getRandomStorySeed cache theme setting draws pickIdx).generatedPass = true ∧
    ((getRandomStorySeed cache theme setting draws pickIdx).cache
      (theme ++ "_" ++ setting)).length = 10 ∧
    (getRandomStorySeed cache theme setting draws pickIdx).savedCache =
      some ((getRandomStorySeed cache theme setting draws pickIdx).cache) ∧
    (getRandomStorySeed cache theme setting draws pickIdx).seed ∈
      (getRandomStorySeed cache theme setting draws pickIdx).cache (theme ++ "_" ++ setting) ∧
    (∀ k, k ≠ theme ++ "_" ++ setting →
      (getRandomStorySeed cache theme setting draws pickIdx).cache k = cache k) ∧
    (emotionChoices1.length = 5 ∧ resolutionChoices1.length = 5 ∧
     emotionChoices2.length = 5 ∧ resolutionChoices2.length = 5 ∧
     emotionChoices3.length = 5 ∧ resolutionChoices3.length = 5) ∧
    (∀ sd ∈ (getRandomStorySeed cache theme setting draws pickIdx).cache
        (theme ++ "_" ++ setting),
      ∃ tb ∈ themeScenariosFor theme, ∃ adj ∈ settingAdjustmentsFor setting,
        sd.activity = adj ∧
        ((sd.problem = tb ++ " while " ++ adj ∧
          sd.emotion ∈ emotionChoices1 ∧ sd.resolution ∈ resolutionChoices1) ∨
         (sd.problem = adj ++ " becomes challenging when " ++ pyLower tb ∧
          sd.emotion ∈ emotionChoices2 ∧ sd.resolution ∈ resolutionChoices2) ∨
         (sd.problem = "While " ++ adj ++ ", character learns about " ++ pyLower theme ∧
          sd.emotion ∈ emotionChoices3 ∧ sd.resolution ∈ resolutionChoices3))) := by
  have hunf : getRandomStorySeed cache theme setting draws pickIdx =
      { seed := pyChoice ((List.range 10).map (fun i =>
          makeSeed theme (themeScenariosFor theme) (settingAdjustmentsFor setting) (draws i))) pickIdx,
        cache := fun k => if k = theme ++ "_" ++ setting then
          (List.range 10).map (fun i =>
            makeSeed theme (themeScenariosFor theme) (settingAdjustmentsFor setting) (draws i))
          else cache k,
        generatedPass := true,
        savedCache := some (fun k => if k = theme ++ "_" ++ setting then
          (List.range 10).map (fun i =>
            makeSeed theme (themeScenariosFor theme) (settingAdjustmentsFor setting) (draws i))
          else cache k) } := by
    simp only [getRandomStorySeed]
    rw [if_neg (by simp [h])]
  rw [hunf]
  refine ⟨rfl, ?_, rfl, ?_, ?_, by decide, ?_⟩
  · simp
  · dsimp only
    rw [if_pos rfl]
    exact pyChoice_mem _ _ (by simp)
  · intro k hk
    dsimp only
    rw [if_neg hk]
  · intro sd hsd
    dsimp only at hsd
    rw [if_pos rfl] at hsd
    rw [List.mem_map] at hsd
    obtain ⟨i, _, rfl⟩ := hsd
    exact makeSeed_shape theme _ _ (themeScenariosFor_ne_nil theme)
      (settingAdjustmentsFor_ne_nil setting) (draws i)

/-- Witness for C6 on an empty cache with the pair Friendship and Beach. -/
theorem seed_generation_witness :
    (getRandomStorySeed (fun _ => []) "Friendship" "Beach"
      (fun _ => default) 0).generatedPass = true ∧
    ((getRandomStorySeed (fun _ => []) "Friendship" "Beach"
      (fun _ => default) 0).cache ("Friendship" ++ "_" ++ "Beach")).length = 10 :=
  ⟨(seed_generation_miss_path _ "Friendship" "Beach" _ 0 rfl).1,
   (seed_generation_miss_path _ "Friendship" "Beach" _ 0 rfl).2.1⟩

/-! ## C4 -/

/-- The final fallback step of character resolution never yields an empty
list. -/
theorem finalize_ne_nil (l : List String) :
    (if l = [] then ["The main character"] else l) ≠ [] := by
  split
  · simp
  · assumption

/-- C4 counterexample: an input characters list that already repeats the
child name is passed through unchanged, so the resolved list contains
`"Wesley"` twice, not exactly once. -/
theorem child_name_duplicated_counterexample :
    resolveCharacterNames "Magical World" "Wesley"
      (.list [.str "Wesley", .str "Wesley"]) [] = ["Wesley", "Wesley"] ∧
    (resolveCharacterNames "Magical World" "Wesley"
      (.list [.str "Wesley", .str "Wesley"]) []).count "Wesley" ≠ 1 := by
  decide

/-- C4 (amended): the resolved character list is always non-empty; when the
child name is non-empty it occurs in the resolved list, and exactly once
provided the supplied characters mention it at most once (the code appends
the child name only when absent and universe sampling is without
replacement, but it does not deduplicate an input that already repeats the
child name). -/
theorem resolved_characters_amended (universeName childName : String)
    (field : CharactersField) (sampled : List String) :
    resolveCharacterNames universeName childName field sampled ≠ [] ∧
    (childName ≠ "" → sampled.Nodup → (parseCharacterNames field).count childName ≤ 1 →
      (resolveCharacterNames universeName childName field sampled).count childName = 1) := by
  constructor
  · simp only [resolveCharacterNames]
    exact finalize_ne_nil _
  · intro hcn hnd hcount
    simp only [resolveCharacterNames]
    set n1 := if parseCharacterNames field = [] then
        (if universeCharactersFor universeName ≠ [] then sampled else parseCharacterNames field)
      else parseCharacterNames field with hn1
    have hc1 : n1.count childName ≤ 1 := by
      rw [hn1]
      split
      · split
        · exact List.nodup_iff_count_le_one.mp hnd childName
        · next hpc _ => simp [hpc]
      · exact hcount
    by_cases hmem : childName ∈ n1
    · have h2 : (if childName ≠ "" ∧ childName ∉ n1 then n1 ++ [childName] else n1) = n1 := by
        rw [if_neg]
        simp [hmem]
      rw [h2, if_neg (List.ne_nil_of_mem hmem)]
      exact le_antisymm hc1 (List.count_pos_iff.mpr hmem)
    · have h2 : (if childName ≠ "" ∧ childName ∉ n1 then n1 ++ [childName] else n1) =
          n1 ++ [childName] := by
        rw [if_pos ⟨hcn, hmem⟩]
      rw [h2, if_neg (by simp), List.count_append]
      simp [List.count_eq_zero_of_not_mem hmem]

/-- Witness for the amended C4: one supplied character plus the child name
resolves to a list containing the child exactly once. -/
theorem resolved_characters_amended_witness :
    resolveCharacterNames "Paw Patrol" "Wesley" (.list [.str "Skye"]) ["Chase"] ≠ [] ∧
    (resolveCharacterNames "Paw Patrol" "Wesley" (.list [.str "Skye"]) ["Chase"]).count "Wesley" = 1 :=
  ⟨(resolved_characters_amended "Paw Patrol" "Wesley" (.list [.str "Skye"]) ["Chase"]).1,
   (resolved_characters_amended "Paw Patrol" "Wesley" (.list [.str "Skye"]) ["Chase"]).2
     (by decide) (by decide) (by decide)⟩
/-! ## C5 -/

/-- An occurrence of a pattern survives prepending characters. -/
theorem charsContain_append (pat xs ys : List Char) (h : charsContain pat ys = true) :
    charsContain pat (xs ++ ys) = true := by
  induction xs with
  | nil => simpa using h
  | cons x rest ih =>
    rw [List.cons_append, charsContain, Bool.or_eq_true]
    exact Or.inr ih

/-- A substring of `b` is a substring of `a ++ b`. -/
theorem pyContains_append_right (a b pat : String) (h : pyContains b pat = true) :
    pyContains (a ++ b) pat = true := by
  unfold pyContains at h ⊢
  rw [String.data_append]
  exact charsContain_append _ _ _ h

/-- A substring of `y ++ z` is a substring of `x ++ y ++ z`. -/
theorem pyContains_tail (x y z pat : String) (h : pyContains (y ++ z) pat = true) :
    pyContains (x ++ y ++ z) pat = true := by
  rw [String.append_assoc]
  exact pyContains_append_right x (y ++ z) pat h

/-- Structure of the sentence composed by `get_specific_scenario`: a main
character chosen from the supplied list, the fetched seed problem, emotion
and resolution woven into the fixed template, with a supporting character
as helper exactly when one exists. -/
theorem getSpecificScenario_structure (cache : String → List Seed) (theme setting : String)
    (chars : List String) (draws : Nat → SeedDraw) (pickIdx mainIdx helperIdx : Nat)
    (hs : setting ≠ "") (hc : chars ≠ []) :
    ∃ mainC sd, mainC ∈ chars ∧
      sd = fetchedSeed cache (if theme = "" then "Friendship" else theme) setting draws pickIdx ∧
      (chars.filter (fun c => c ≠ mainC) = [] →
        (getSpecificScenario cache theme setting chars draws pickIdx mainIdx helperIdx).1 =
          mainC ++ " " ++ sd.problem ++ ". " ++ "They feel " ++ sd.emotion ++ " about this. " ++
          "They solve this by " ++ sd.resolution ++ ". " ++
          "This all happens while " ++ sd.activity ++ " at the " ++ pyLower setting ++ ".") ∧
      (chars.filter (fun c => c ≠ mainC) ≠ [] →
        ∃ helper, helper ∈ chars.filter (fun c => c ≠ mainC) ∧
          (getSpecificScenario cache theme setting chars draws pickIdx mainIdx helperIdx).1 =
            mainC ++ " " ++ sd.problem ++ ". " ++ "They feel " ++ sd.emotion ++ " about this. " ++
            helper ++ " helps them by " ++ sd.resolution ++ ". " ++
            "This all happens while " ++ sd.activity ++ " at the " ++ pyLower setting ++ ".") := by
  refine ⟨pyChoice chars mainIdx, _, pyChoice_mem _ _ hc, rfl, ?_, ?_⟩
  · intro hsup
    simp only [getSpecificScenario, fetchedSeed, if_neg hs, if_neg hc, if_pos hc]
    rw [if_neg (not_not_intro hsup)]
  · intro hsup
    refine ⟨pyChoice (chars.filter (fun c => c ≠ pyChoice chars mainIdx)) helperIdx,
      pyChoice_mem _ _ hsup, ?_⟩
    simp only [getSpecificScenario, fetchedSeed, if_neg hs, if_neg hc, if_pos hc]
    rw [if_pos hsup]

/-- C5: `get_specific_scenario` picks a main character from the supplied
list and returns the fixed sentence template `"{main} {problem}. They feel
{emotion} about this."`, continued by a chosen other character helping
`"by {resolution}"` when other characters exist (else the main character
solving), and ending `"This all happens while {activity} at the
{setting}."` with the setting rendered in lower case; in particular for
theme Friendship, setting Beach and characters Wesley and Skye the
sentence contains `"beach"` and names exactly one of the two characters
as the helper (the one that is not the main character). -/
theorem scenario_sentence_composition :
    (∀ (cache : String → List Seed) (theme setting : String) (chars : List String)
      (draws : Nat → SeedDraw) (pickIdx mainIdx helperIdx : Nat),
      setting ≠ "" → chars ≠ [] →
      ∃ mainC sd, mainC ∈ chars ∧
        sd = fetchedSeed cache (if theme = "" then "Friendship" else theme) setting draws pickIdx ∧
        (chars.filter (fun c => c ≠ mainC) = [] →
          (getSpecificScenario cache theme setting chars draws pickIdx mainIdx helperIdx).1 =
            mainC ++ " " ++ sd.problem ++ ". " ++ "They feel " ++ sd.emotion ++ " about this. " ++
            "They solve this by " ++ sd.resolution ++ ". " ++
            "This all happens while " ++ sd.activity ++ " at the " ++ pyLower setting ++ ".") ∧
        (chars.filter (fun c => c ≠ mainC) ≠ [] →
          ∃ helper, helper ∈ chars.filter (fun c => c ≠ mainC) ∧
            (getSpecificScenario cache theme setting chars draws pickIdx mainIdx helperIdx).1 =
              mainC ++ " " ++ sd.problem ++ ". " ++ "They feel " ++ sd.emotion ++ " about this. " ++
              helper ++ " helps them by " ++ sd.resolution ++ ". " ++
              "This all happens while " ++ sd.activity ++ " at the " ++ pyLower setting ++ ".")) ∧
    (∀ (cache : String → List Seed) (draws : Nat → SeedDraw) (pickIdx mainIdx helperIdx : Nat),
      pyContains (getSpecificScenario cache "Friendship" "Beach" ["Wesley", "Skye"]
        draws pickIdx mainIdx helperIdx).1 "beach" = true ∧
      ∃ mainC helper mid tail,
        ((mainC = "Wesley" ∧ helper = "Skye") ∨ (mainC = "Skye" ∧ helper = "Wesley")) ∧
        (getSpecificScenario cache "Friendship" "Beach" ["Wesley", "Skye"]
          draws pickIdx mainIdx helperIdx).1 =
          mainC ++ " " ++ mid ++ helper ++ " helps them by " ++ tail) := by
  constructor
  · intro cache theme setting chars draws pickIdx mainIdx helperIdx hs hc
    exact getSpecificScenario_structure cache theme setting chars draws pickIdx mainIdx helperIdx hs hc
  · intro cache draws pickIdx mainIdx helperIdx
    obtain ⟨mainC, sd, hmem, _, _, hyes⟩ :=
      getSpecificScenario_structure cache "Friendship" "Beach" ["Wesley", "Skye"]
        draws pickIdx mainIdx helperIdx (by decide) (by decide)
    simp only [List.mem_cons, List.not_mem_nil, or_false] at hmem
    rcases hmem with rfl | rfl
    · have hfil : (["Wesley", "Skye"].filter (fun c => c ≠ "Wesley")) = ["Skye"] := by decide
      obtain ⟨helper, hhmem, heq⟩ := hyes (by rw [hfil]; simp)
      rw [hfil] at hhmem
      have hh : helper = "Skye" := by simpa using hhmem
      subst hh
      constructor
      · rw [heq]
        exact pyContains_tail _ _ _ _ (by decide)
      · refine ⟨"Wesley", "Skye",
          sd.problem ++ ". " ++ "They feel " ++ sd.emotion ++ " about this. ",
          sd.resolution ++ ". " ++ "This all happens while " ++ sd.activity ++
            " at the " ++ pyLower "Beach" ++ ".",
          Or.inl ⟨rfl, rfl⟩, ?_⟩
        rw [heq]
        simp [String.append_assoc]
    · have hfil : (["Wesley", "Skye"].filter (fun c => c ≠ "Skye")) = ["Wesley"] := by decide
      obtain ⟨helper, hhmem, heq⟩ := hyes (by rw [hfil]; simp)
      rw [hfil] at hhmem
      have hh : helper = "Wesley" := by simpa using hhmem
      subst hh
      constructor
      · rw [heq]
        exact pyContains_tail _ _ _ _ (by decide)
      · refine ⟨"Skye", "Wesley",
          sd.problem ++ ". " ++ "They feel " ++ sd.emotion ++ " about this. ",
          sd.resolution ++ ". " ++ "This all happens while " ++ sd.activity ++
            " at the " ++ pyLower "Beach" ++ ".",
          Or.inr ⟨rfl, rfl⟩, ?_⟩
        rw [heq]
        simp [String.append_assoc]

/-- Witness for C5 with one character: the main character solves the
problem alone and the sentence follows the template. -/
theorem scenario_sentence_witness :
    ∃ mainC sd, mainC ∈ ["Mom"] ∧
      sd = fetchedSeed (fun _ => []) (if ("Sharing" : String) = "" then "Friendship" else "Sharing")
        "Zoo" (fun _ => default) 0 ∧
      ((["Mom"].filter (fun c => c ≠ mainC)) = [] →
        (getSpecificScenario (fun _ => []) "Sharing" "Zoo" ["Mom"] (fun _ => default) 0 0 0).1 =
          mainC ++ " " ++ sd.problem ++ ". " ++ "They feel " ++ sd.emotion ++ " about this. " ++
          "They solve this by " ++ sd.resolution ++ ". " ++
          "This all happens while " ++ sd.activity ++ " at the " ++ pyLower "Zoo" ++ ".") ∧
      ((["Mom"].filter (fun c => c ≠ mainC)) ≠ [] →
        ∃ helper, helper ∈ ["Mom"].filter (fun c => c ≠ mainC) ∧
          (getSpecificScenario (fun _ => []) "Sharing" "Zoo" ["Mom"] (fun _ => default) 0 0 0).1 =
            mainC ++ " " ++ sd.problem ++ ". " ++ "They feel " ++ sd.emotion ++ " about this. " ++
            helper ++ " helps them by " ++ sd.resolution ++ ". " ++
            "This all happens while " ++ sd.activity ++ " at the " ++ pyLower "Zoo" ++ ".") :=
  scenario_sentence_composition.1 (fun _ => []) "Sharing" "Zoo" ["Mom"]
    (fun _ => default) 0 0 0 (by decide) (by decide)

/-! ## C1 -/

/-- `processDelta` always extends the transcript by exactly the delta. -/
theorem processDelta_fullText (segment : String → List String) (st : StreamState) (d : String) :
    (processDelta segment st d).fullText = st.fullText ++ d := by
  unfold processDelta
  dsimp only
  split
  · split <;> rfl
  · rfl

/-- The transcript accumulated by the loop is the concatenation of the
start transcript and all deltas. -/
theorem foldl_fullText (segment : String → List String) :
    ∀ (deltas : List String) (st : StreamState),
      (deltas.foldl (processDelta segment) st).fullText = st.fullText ++ concatAll deltas := by
  intro deltas
  induction deltas with
  | nil => intro st; simp [concatAll, String.append_empty]
  | cons d rest ih =>
    intro st
    rw [List.foldl_cons, ih, processDelta_fullText, concatAll, String.append_assoc]

/-- Invariant of the streaming loop for a content-preserving segmenter that
yields at most two sentences per pass: forwarded text plus pending buffer
equals the transcript. -/
theorem stream_invariant (segment : String → List String)
    (hcp : contentPreservingSegmenter segment) (h2 : ∀ s, (segment s).length ≤ 2) :
    ∀ (deltas : List String) (st : StreamState),
      concatAll st.forwarded ++ st.chunkBuffer = st.fullText →
      concatAll (deltas.foldl (processDelta segment) st).forwarded ++
          (deltas.foldl (processDelta segment) st).chunkBuffer =
        (deltas.foldl (processDelta segment) st).fullText := by
  intro deltas
  induction deltas with
  | nil => intro st h; simpa using h
  | cons d rest ih =>
    intro st h
    rw [List.foldl_cons]
    apply ih
    unfold processDelta
    dsimp only
    split
    · split
      · next hlen =>
        obtain ⟨a, b, hab⟩ := List.length_eq_two.mp (le_antisymm (h2 _) hlen)
        rw [hab]
        have hj := (hcp (st.chunkBuffer ++ d)).1
        rw [hab] at hj
        simp only [concatAll, String.append_empty] at hj
        have hd : ([a, b].dropLast) = [a] := rfl
        have hl : ([a, b].getLastD "") = b := by simp
        have hpj : pyJoinSep " " [a] = a := rfl
        have hca : concatAll [a] = a := by simp [concatAll, String.append_empty]
        rw [hd, hl, hpj, concatAll_append, hca, String.append_assoc, hj,
          ← String.append_assoc, h]
      · rw [← String.append_assoc, h]
    · rw [← String.append_assoc, h]

/-- C1 counterexample: the claim fails for a content-preserving segmenter
(matching pysbd with `clean=False`) on a single 62-character delta that
segments into three sentences: the code joins the two ready sentences with
an extra space, so the forwarded text plus the flushed remainder has one
character more than the transcript. -/
theorem streaming_flush_counterexample :
    ¬ (∀ segment : String → List String, contentPreservingSegmenter segment →
        ∀ deltas : List String,
          concatAll (flushedOutputs segment deltas) = (runStream segment deltas).fullText) := by
  intro hclaim
  have hcp : contentPreservingSegmenter cexSegmenter := by
    intro s
    unfold cexSegmenter
    split
    · next heq =>
      subst heq
      exact ⟨by decide, by decide⟩
    · refine ⟨?_, by simp⟩
      simp [concatAll, String.append_empty]
  exact absurd (hclaim cexSegmenter hcp [cexInput]) (by decide)

/-- C1 (amended): for a content-preserving segmenter, the concatenation of
all ready chunks forwarded to synthesis plus the final flushed remainder
equals the accumulated transcript, and the transcript is exactly the
concatenation of the deltas, provided every segmentation pass yields at
most two sentences (so that at most one ready sentence is forwarded per
pass and the `" ".join` inserts no extra space); with three or more
sentences in one pass the joined ready text gains one space per extra
sentence. -/
theorem streaming_flush_amended (segment : String → List String)
    (hcp : contentPreservingSegmenter segment) (h2 : ∀ s, (segment s).length ≤ 2)
    (deltas : List String) :
    concatAll (flushedOutputs segment deltas) = (runStream segment deltas).fullText ∧
    (runStream segment deltas).fullText = concatAll deltas := by
  have hinv := stream_invariant segment hcp h2 deltas initialStreamState (by decide)
  have hinv' : concatAll (runStream segment deltas).forwarded ++
      (runStream segment deltas).chunkBuffer = (runStream segment deltas).fullText := hinv
  constructor
  · simp only [flushedOutputs]
    split
    · next hb =>
      rw [List.append_nil, ← hinv', hb, String.append_empty]
    · next hb =>
      rw [concatAll_append]
      have hc : concatAll [(runStream segment deltas).chunkBuffer] =
          (runStream segment deltas).chunkBuffer := by
        simp [concatAll, String.append_empty]
      rw [hc, hinv']
  · unfold runStream
    rw [foldl_fullText]
    exact String.empty_append _

/-- Witness for the amended C1: the identity segmenter on two deltas. -/
theorem streaming_flush_amended_witness :
    concatAll (flushedOutputs (fun s => [s]) ["Hello ", "world, the end."]) =
      (runStream (fun s => [s]) ["Hello ", "world, the end."]).fullText ∧
    (runStream (fun s => [s]) ["Hello ", "world, the end."]).fullText =
      concatAll ["Hello ", "world, the end."] :=
  streaming_flush_amended (fun s => [s])
    (fun s => ⟨by simp [concatAll, String.append_empty], by simp⟩)
    (fun s => by simp) ["Hello ", "world, the end."]
